import Mathlib

/-!
Verification of the eRPC session-management core against its specification.

This file gives a shallow embedding of the core operations found in
`src/rpc_impl/rpc.cc`, `src/rpc_impl/rpc_disconnect_handlers.cc`,
`src/nexus_impl/nexus_bg_thread.cc` and `src/util/tls_registry.h`, and proves
theorems about the embedded definitions.

Modelling conventions:
* C++ `assert(...)` failures and fatal exits are modelled by `Option`/outcome
  types: a failed assertion makes the embedded function return `none` (or a
  dedicated fatal constructor), since in a debug build the process aborts there.
* Side effects that leave the modelled state (sending a UDP response, invoking
  a user callback, freeing a message buffer) are recorded as events in a list,
  in the order the source performs them.
* Pointers are modelled by values; a nullable pointer becomes an `Option`.
* The handlers in `rpc_disconnect_handlers.cc` begin with `assert(in_creator())`,
  a thread-identity check; thread identity is modelled explicitly only where a
  claim is about it (the destructor and the background threads), and the
  single-threaded handlers are embedded as running on the creator thread.
-/

namespace ERpc

/-- Session-management packet types (`SessionMgmtPktType` in the source). -/
inductive SessionMgmtPktType
  | kConnectReq
  | kConnectResp
  | kDisconnectReq
  | kDisconnectResp
  deriving DecidableEq, Repr

/-- Modelled from the spec: the session-management error type enum
(`SessionMgmtErrType`) is not under `src/`; the spec names `kNoError` and
`kTooManySessions`, and the embedding adds one further representative value. -/
inductive SessionMgmtErrType
  | kNoError
  | kTooManySessions
  | kInvalidRemoteRpcId
  deriving DecidableEq, Repr

/-- Modelled from the spec: `session_mgmt_err_type_is_valid` checks that the
wire byte is one of the enum values; in the embedding `SessionMgmtErrType` is
already an enum, so every value is valid. -/
def session_mgmt_err_type_is_valid (_e : SessionMgmtErrType) : Bool := true

/-- Modelled from the spec: session-management event types delivered to the
user callback (`SessionMgmtEventType` is not under `src/`); the spec names
the connected, connect-failed and disconnected events. -/
inductive SessionMgmtEventType
  | kConnected
  | kConnectFailed
  | kDisconnected
  deriving DecidableEq, Repr

/-- A session endpoint: hostname, RpcId, session number and an opaque
transport-addressing blob. Two endpoints compare equal iff all fields match
(structural equality, as in the source `operator==`). -/
structure SessionEndpoint where
  hostname : String
  rpc_id : Nat
  session_num : Nat
  transport_blob : Nat
  deriving DecidableEq, Repr

/-- The inner `Buffer` of a `MsgBuffer` (field `buffer.buf` is checked in
`handle_disconnect_req_st`). A null pointer is `none`. -/
structure Buffer where
  buf : Option Nat
  deriving DecidableEq, Repr

/-- A `MsgBuffer`: the datapath buffer handle. `buf` is the data pointer
(null = `none`), `buffer` the backing registered buffer, and
`num_pkts`/`pkts_queued` the transmission progress counters. `req_type` models
the request type read by `get_req_type()` in the background thread. -/
structure MsgBuffer where
  buf : Option Nat
  buffer : Buffer
  num_pkts : Nat
  pkts_queued : Nat
  req_type : Nat
  deriving DecidableEq, Repr

/-- Client-side saved info of an `SSlot`: the saved continuation (modelled by
an opaque identifier) and its opaque tag. -/
structure ClientSaveInfo where
  cont_func : Nat
  tag : Nat
  deriving DecidableEq, Repr

/-- An `SSlot`: per-request window entry. -/
structure SSlot where
  rx_msgbuf : MsgBuffer
  tx_msgbuf : Option MsgBuffer
  pre_resp_msgbuf : MsgBuffer
  clt_save_info : ClientSaveInfo
  deriving DecidableEq, Repr

/-- Session roles. A session's role is immutable after creation. -/
inductive SessionRole
  | client
  | server
  deriving DecidableEq, Repr

/-- Session states (`SessionState` in the source). -/
inductive SessionState
  | kConnectInProgress
  | kConnected
  | kDisconnectInProgress
  | kDisconnected
  deriving DecidableEq, Repr

/-- Modelled from the spec: `Session::kSessionReqWindow` (the compile-time
window size W) is defined in `session.h`, which is not under `src/`; the spec
scenario section uses W = 8. -/
def kSessionReqWindow : Nat := 8

/-- Client-only per-session saved info (`session->client_info` in the
source); holds the callback-disabled flag. -/
structure SessionClientInfo where
  sm_callbacks_disabled : Bool
  deriving DecidableEq, Repr

/-- A `Session`: per-session state. `sslot_arr` is the fixed-size slot array;
in the source its length is always `kSessionReqWindow`. -/
structure Session where
  role : SessionRole
  state : SessionState
  client : SessionEndpoint
  server : SessionEndpoint
  local_session_num : Nat
  sslot_arr : List SSlot
  client_info : SessionClientInfo
  deriving DecidableEq, Repr

/-- `Session::is_client()`. -/
def Session.is_client (s : Session) : Bool :=
  match s.role with
  | SessionRole.client => true
  | SessionRole.server => false

/-- `Session::is_server()`. -/
def Session.is_server (s : Session) : Bool :=
  match s.role with
  | SessionRole.client => false
  | SessionRole.server => true

/-- A session-management packet (`SessionMgmtPkt`): fixed-layout datagram with
packet type, error type and the two endpoints. Structural equality of this
record models byte-for-byte equality of the fixed wire layout. -/
structure SessionMgmtPkt where
  pkt_type : SessionMgmtPktType
  err_type : SessionMgmtErrType
  client : SessionEndpoint
  server : SessionEndpoint
  deriving DecidableEq, Repr

/-- Modelled from the spec: the request-to-response packet-type conversion used
by `SessionMgmtPkt::send_resp_mut` (defined in `session_mgmt_types.h`, not
under `src/`): a request type becomes the corresponding response type. -/
def SessionMgmtPktType.reqToResp : SessionMgmtPktType → SessionMgmtPktType
  | SessionMgmtPktType.kConnectReq => SessionMgmtPktType.kConnectResp
  | SessionMgmtPktType.kConnectResp => SessionMgmtPktType.kConnectResp
  | SessionMgmtPktType.kDisconnectReq => SessionMgmtPktType.kDisconnectResp
  | SessionMgmtPktType.kDisconnectResp => SessionMgmtPktType.kDisconnectResp

/-- Modelled from the spec: `SessionMgmtPkt::send_resp_mut(err_type, udp_config)`
is not under `src/`; per the spec it converts the request packet in place into
the response (response packet type, given error type, endpoints unchanged) and
transmits exactly those bytes over UDP. The embedding returns the response
packet that is sent. -/
def SessionMgmtPkt.send_resp_mut (pkt : SessionMgmtPkt) (err : SessionMgmtErrType) :
    SessionMgmtPkt :=
  { pkt with pkt_type := pkt.pkt_type.reqToResp, err_type := err }

/-- Observable side effects of the session-management handlers, in program
order: sending a UDP response packet, invoking the user session-management
callback, and freeing a message buffer (`free_msg_buffer`). -/
inductive SmEvent
  | sendResp (resp : SessionMgmtPkt)
  | smCallback (local_session_num : Nat) (event : SessionMgmtEventType)
      (err : SessionMgmtErrType)
  | freeMsgBuffer (mbuf : MsgBuffer)
  deriving DecidableEq, Repr

/-- The state of one `Rpc` endpoint relevant to the session-management
handlers: its id, the nexus hostname it compares against, the session vector
(`session_vec`, a null entry is `none`) and the management retry queue.
Modelled from the spec: the retry queue itself (`mgmt_retryq`) lives in code
not under `src/`; per the spec it holds client sessions, and the embedding
keys it by local session number. -/
structure RpcState where
  rpc_id : Nat
  hostname : String
  session_vec : List (Option Session)
  mgmt_retryq : List Nat
  deriving DecidableEq, Repr

/-- Modelled from the spec: `mgmt_retryq_contains_st(session)` — membership of
a session in the management retry queue, keyed by local session number. -/
def mgmt_retryq_contains (q : List Nat) (session_num : Nat) : Bool :=
  q.contains session_num

/-- Modelled from the spec: `mgmt_retryq_remove_st(session)` — removal of a
session from the management retry queue (a session is enqueued at most once). -/
def mgmt_retryq_remove (q : List Nat) (session_num : Nat) : List Nat :=
  q.filter (fun n => n != session_num)

/-- Embedding of `Rpc::bury_session_st` (`rpc.cc`, lines 119-142). Asserts
that a client session is not in the retry queue; frees the preallocated
response `MsgBuffer` of every slot of `sslot_arr` (the source loops
`i < kSessionReqWindow` over the fixed-size array); sets
`session_vec.at(local_session_num)` to null (`.at` bounds-checks, modelled by
the length test); `delete session` does nothing further. -/
def bury_session_st (rpc : RpcState) (session : Session) :
    Option (RpcState × List SmEvent) :=
  if session.is_client = true ∧
      mgmt_retryq_contains rpc.mgmt_retryq session.local_session_num = true then
    none
  else if session.local_session_num < rpc.session_vec.length then
    some ({ rpc with
              session_vec := rpc.session_vec.set session.local_session_num none },
          session.sslot_arr.map (fun s => SmEvent.freeMsgBuffer s.pre_resp_msgbuf))
  else none

/-- Quiescence of a single slot, as asserted by `handle_disconnect_req_st`
(lines 51-59): the rx buffer is cleared (`rx_msgbuf.buf` and
`rx_msgbuf.buffer.buf` both null), and the tx buffer, if any, is fully sent
(`pkts_queued == num_pkts`). -/
def sslot_quiescent (s : SSlot) : Bool :=
  s.rx_msgbuf.buf.isNone && s.rx_msgbuf.buffer.buf.isNone &&
    (match s.tx_msgbuf with
     | none => true
     | some tx => tx.pkts_queued == tx.num_pkts)

/-- Quiescence of all slots of a session's slot array. -/
def sslots_quiescent (l : List SSlot) : Bool :=
  l.all sslot_quiescent

/-- Embedding of `Rpc::handle_disconnect_req_st`
(`rpc_disconnect_handlers.cc`, lines 16-65). Asserts packet type, that the
packet's server fields name this Rpc, and that the session number is in range;
if the session slot is empty this is a duplicate and only a `kNoError`
response is resent; otherwise asserts the session is a server session with
matching endpoints and quiescent slots, sends the response, and buries the
session. -/
def handle_disconnect_req_st (rpc : RpcState) (pkt : SessionMgmtPkt) :
    Option (RpcState × List SmEvent) :=
  if pkt.pkt_type ≠ SessionMgmtPktType.kDisconnectReq then none
  else if pkt.server.rpc_id ≠ rpc.rpc_id then none
  else if pkt.server.hostname ≠ rpc.hostname then none
  else if pkt.server.session_num < rpc.session_vec.length then
    match rpc.session_vec.getD pkt.server.session_num none with
    | none =>
        some (rpc, [SmEvent.sendResp (pkt.send_resp_mut SessionMgmtErrType.kNoError)])
    | some session =>
        if session.is_server ≠ true then none
        else if session.server ≠ pkt.server then none
        else if session.client ≠ pkt.client then none
        else if sslots_quiescent session.sslot_arr ≠ true then none
        else
          match bury_session_st rpc session with
          | none => none
          | some (rpc2, buryEvents) =>
              some (rpc2,
                SmEvent.sendResp (pkt.send_resp_mut SessionMgmtErrType.kNoError)
                  :: buryEvents)
  else none

/-- The retry-queue removal step of `handle_disconnect_resp_st` (line 105):
`mgmt_retryq_remove_st(session)`. -/
def disconnect_resp_remove_retryq (rpc : RpcState) (session : Session) : RpcState :=
  { rpc with
      mgmt_retryq := mgmt_retryq_remove rpc.mgmt_retryq session.local_session_num }

/-- The state-transition step of `handle_disconnect_resp_st` (line 115):
`session->state = kDisconnected`. The session object lives in the vector slot
it was looked up from, so the assignment updates that slot. -/
def disconnect_resp_mark_disconnected (rpc : RpcState) (session_num : Nat)
    (session : Session) : RpcState :=
  { rpc with
      session_vec := rpc.session_vec.set session_num
        (some { session with state := SessionState.kDisconnected }) }

/-- Embedding of `Rpc::handle_disconnect_resp_st`
(`rpc_disconnect_handlers.cc`, lines 69-130). Asserts packet type and error
validity; looks the session up by the packet's client session number; on an
empty slot (duplicate response) returns with no effect (the source's
`assert(!mgmt_retryq_contains_st(session))` there compares against the null
pointer, which is never enqueued, so it cannot fire); otherwise asserts the
state is `kDisconnectInProgress` and retry-queue membership, removes the
session from the retry queue, asserts matching endpoints and
`err_type == kNoError`, marks the session disconnected, invokes the user
callback unless `sm_callbacks_disabled`, and buries the session. -/
def handle_disconnect_resp_st (rpc : RpcState) (pkt : SessionMgmtPkt) :
    Option (RpcState × List SmEvent) :=
  if pkt.pkt_type ≠ SessionMgmtPktType.kDisconnectResp then none
  else if session_mgmt_err_type_is_valid pkt.err_type ≠ true then none
  else if pkt.client.session_num < rpc.session_vec.length then
    match rpc.session_vec.getD pkt.client.session_num none with
    | none => some (rpc, [])
    | some session =>
        if session.state ≠ SessionState.kDisconnectInProgress then none
        else if mgmt_retryq_contains rpc.mgmt_retryq session.local_session_num ≠ true then
          none
        else
          let rpc1 := disconnect_resp_remove_retryq rpc session
          if session.server ≠ pkt.server then none
          else if session.client ≠ pkt.client then none
          else if pkt.err_type ≠ SessionMgmtErrType.kNoError then none
          else
            let rpc2 := disconnect_resp_mark_disconnected rpc1 pkt.client.session_num session
            let cbEvents :=
              if session.client_info.sm_callbacks_disabled = false then
                [SmEvent.smCallback session.local_session_num
                  SessionMgmtEventType.kDisconnected SessionMgmtErrType.kNoError]
              else []
            match bury_session_st rpc2 { session with state := SessionState.kDisconnected } with
            | none => none
            | some (rpc3, buryEvents) => some (rpc3, cbEvents ++ buryEvents)
  else none

/-- Replaying the same disconnect request `k` times, threading the Rpc state
through and collecting the event list of every replay. -/
def replay_disconnect_req (rpc : RpcState) (pkt : SessionMgmtPkt) :
    Nat → Option (RpcState × List (List SmEvent))
  | 0 => some (rpc, [])
  | Nat.succ k =>
      match handle_disconnect_req_st rpc pkt with
      | none => none
      | some (rpc2, evs) =>
          match replay_disconnect_req rpc2 pkt k with
          | none => none
          | some (rpc3, rest) => some (rpc3, evs :: rest)

/-- The part of the `Nexus` read by the `Rpc` constructor: registered RpcIds
(for `rpc_id_exists`) and the number of background threads (read in the
member-initializer list). -/
structure NexusModel where
  hostname : String
  registered_rpc_ids : List Nat
  num_bg_threads : Nat
  deriving DecidableEq, Repr

/-- The reserved invalid RpcId `kInvalidRpcId` (0xFF; RpcIds are 8-bit). -/
def kInvalidRpcId : Nat := 255

/-- Modelled from the spec: the configured bounds `kMaxPhyPorts` and
`kMaxNumaNodes` are defined in `common.h`, which is not under `src/`; the
embedding carries them as configuration values. -/
structure RpcConfig where
  kMaxPhyPorts : Nat
  kMaxNumaNodes : Nat
  deriving DecidableEq, Repr

/-- The exceptions thrown by the `Rpc` constructor body (`rpc.cc`, lines
29-70). -/
inductive RpcCtorError
  | notRoot
  | invalidNexus
  | invalidRpcId
  | invalidPhyPort
  | invalidNumaNode
  | initHugepageFailure
  deriving DecidableEq, Repr

/-- What a successful `Rpc` construction has done: allocated the transport and
the huge-page allocator and registered the NexusHook. -/
structure RpcCtorResult where
  rpc_id : Nat
  transport_allocated : Bool
  huge_alloc_allocated : Bool
  hook_registered : Bool
  deriving DecidableEq, Repr

/-- Outcome of running the `Rpc` constructor: `crash` models undefined
behavior (a null-pointer dereference), `thrown` a C++ exception escaping the
constructor, `ok` a completed construction. -/
inductive RpcCtorOutcome
  | crash
  | thrown (e : RpcCtorError)
  | ok (r : RpcCtorResult)
  deriving DecidableEq, Repr

/-- Embedding of the `Rpc` constructor (`rpc.cc`, lines 14-79). The
member-initializer list evaluates `nexus->num_bg_threads` and
`nexus->req_func_arr` before the constructor body runs, so a null `nexus`
is dereferenced there (undefined behavior, modelled as `crash`) and the
body's `nexus == nullptr` check (lines 35-38) can never be reached with a
null `nexus`. The body then checks, in order: `getuid()` must be 0; the
RpcId must not be `kInvalidRpcId` nor already registered; the physical port
and NUMA node must be below the configured bounds. It then allocates the
transport and the huge-page allocator; if
`transport->init_hugepage_structures` throws (modelled by the
`init_hugepage_throws` flag), the allocator is freed and the exception
rethrown. On success the NexusHook is registered. -/
def rpc_construct (cfg : RpcConfig) (nexus : Option NexusModel) (uid : Nat)
    (rpc_id : Nat) (phy_port : Nat) (numa_node : Nat)
    (init_hugepage_throws : Bool) : RpcCtorOutcome :=
  match nexus with
  | none => RpcCtorOutcome.crash
  | some nx =>
      if uid ≠ 0 then RpcCtorOutcome.thrown RpcCtorError.notRoot
      else if rpc_id = kInvalidRpcId ∨ rpc_id ∈ nx.registered_rpc_ids then
        RpcCtorOutcome.thrown RpcCtorError.invalidRpcId
      else if cfg.kMaxPhyPorts ≤ phy_port then
        RpcCtorOutcome.thrown RpcCtorError.invalidPhyPort
      else if cfg.kMaxNumaNodes ≤ numa_node then
        RpcCtorOutcome.thrown RpcCtorError.invalidNumaNode
      else if init_hugepage_throws then
        RpcCtorOutcome.thrown RpcCtorError.initHugepageFailure
      else
        RpcCtorOutcome.ok
          { rpc_id := rpc_id, transport_allocated := true,
            huge_alloc_allocated := true, hook_registered := true }

/-- Resource-release steps of the `Rpc` destructor, in program order. -/
inductive RpcDtorEvent
  | deleteHugeAlloc
  | deleteTransport
  | unregisterHook
  deriving DecidableEq, Repr

/-- Outcome of the `Rpc` destructor: a fatal `exit(-1)` (before releasing
anything) or completed destruction with its release steps. -/
inductive RpcDtorOutcome
  | fatalWrongThread
  | fatalInEventLoop
  | destroyed (events : List RpcDtorEvent)
  deriving DecidableEq, Repr

/-- Embedding of the `Rpc` destructor (`rpc.cc`, lines 81-117). If the caller
is not the creator thread, print a diagnostic and `exit(-1)` — no resource is
released. If datapath checks are compiled in and the destructor runs inside
the event loop, likewise `exit(-1)`. Otherwise delete the huge-page
allocator, delete the transport, and unregister the NexusHook, in that
order. -/
def rpc_destructor (in_creator : Bool) (kDatapathChecks : Bool)
    (in_event_loop : Bool) : RpcDtorOutcome :=
  if in_creator = false then RpcDtorOutcome.fatalWrongThread
  else if kDatapathChecks = true ∧ in_event_loop = true then
    RpcDtorOutcome.fatalInEventLoop
  else
    RpcDtorOutcome.destroyed
      [RpcDtorEvent.deleteHugeAlloc, RpcDtorEvent.deleteTransport,
       RpcDtorEvent.unregisterHook]

/-- Background work item kinds (`BgWorkItemType`): a long-running request
handler or a long-running continuation. -/
inductive BgWorkItemType
  | kReq
  | kResp
  deriving DecidableEq, Repr

/-- A `BgWorkItem`: kind, the owning Rpc's id (debug only), the application
context pointer (nullable) and the slot. The source also reads
`sslot->session` as a debug-only back-reference; the embedding carries the
slot by value. -/
structure BgWorkItem where
  wi_type : BgWorkItemType
  rpc_id : Nat
  context : Option Nat
  sslot : SSlot
  deriving DecidableEq, Repr

/-- Modelled from the spec: `Rpc::debug_check_bg_rx_msgbuf` is declared in
`rpc.h`, which is not under `src/`; per the data-model invariant, a slot
handed to a background thread has a non-null `rx_msgbuf` until the handler or
continuation releases it. -/
def debug_check_bg_rx_msgbuf (sslot : SSlot) (_wi_type : BgWorkItemType) : Bool :=
  sslot.rx_msgbuf.buf.isSome

/-- Observable effects of processing one background work item: invoking the
registered request handler, burying the slot's rx buffer
(`bury_sslot_rx_msgbuf`), or invoking the saved continuation with its tag. -/
inductive BgEvent
  | invokeReqHandler (req_type : Nat) (sslot : SSlot) (context : Nat)
  | buryRxMsgbuf (sslot : SSlot)
  | invokeContinuation (sslot : SSlot) (context : Nat) (tag : Nat)
  deriving DecidableEq, Repr

/-- Embedding of the per-item body of the background worker loop
(`nexus_bg_thread.cc`, lines 45-80). Asserts a non-null context, a pending rx
buffer and a null tx buffer. For a request item, the handler of the rx
buffer's request type is looked up in the (immutable) request-function table
— it must be registered — the handler runs, and then the core buries the
slot's rx buffer. For a continuation item, the saved continuation runs with
the saved tag, and the core does not release the rx buffer. -/
def bg_process_work_item (req_func_registered : Nat → Bool) (item : BgWorkItem) :
    Option (List BgEvent) :=
  match item.context with
  | none => none
  | some ctx =>
      if debug_check_bg_rx_msgbuf item.sslot item.wi_type ≠ true then none
      else if item.sslot.tx_msgbuf ≠ none then none
      else
        match item.wi_type with
        | BgWorkItemType.kReq =>
            if req_func_registered item.sslot.rx_msgbuf.req_type ≠ true then none
            else
              some [BgEvent.invokeReqHandler item.sslot.rx_msgbuf.req_type item.sslot ctx,
                    BgEvent.buryRxMsgbuf item.sslot]
        | BgWorkItemType.kResp =>
            some [BgEvent.invokeContinuation item.sslot ctx item.sslot.clt_save_info.tag]

/-- Processing a whole batch of work items in list order, concatenating their
events; fails if any item fails an assertion. -/
def bg_process_all (req_func_registered : Nat → Bool) :
    List BgWorkItem → Option (List BgEvent)
  | [] => some []
  | item :: rest =>
      match bg_process_work_item req_func_registered item,
            bg_process_all req_func_registered rest with
      | some evs, some rest_evs => some (evs ++ rest_evs)
      | _, _ => none

/-- Modelled from the spec: `MtList<T>` (`util/mt_list.h` is not under
`src/`): a locked list with an element list and a lock-free size counter. -/
structure MtList (α : Type) where
  list : List α
  size : Nat
  deriving DecidableEq, Repr

/-- Modelled from the spec: `MtList::locked_clear` clears the list and resets
the size to 0 (called under the lock). -/
def MtList.locked_clear {α : Type} (_l : MtList α) : MtList α :=
  { list := [], size := 0 }

/-- Lock-protocol actions of one drain of the background worker loop, used to
state in which order the worker takes the lock, invokes items, clears the
list and releases the lock. -/
inductive BgAction (α : Type)
  | lock
  | invokeItem (item : α)
  | clearList
  | unlock
  deriving DecidableEq, Repr

/-- The items invoked in an action trace, in order. -/
def invokedItems {α : Type} (tr : List (BgAction α)) : List α :=
  tr.filterMap (fun a =>
    match a with
    | BgAction.invokeItem i => some i
    | _ => none)

/-- Embedding of one drain iteration of the background worker loop
(`nexus_bg_thread.cc`, lines 33-85): if the list's size probe reads 0 the
worker sleeps and retries (no drain: `none`); otherwise it locks, invokes
every item of the list in order, clears the list with `locked_clear`, and
unlocks. Returns the new list state, the lock-protocol action trace and the
events of all invocations. -/
def bg_drain_once (req_func_registered : Nat → Bool) (req_list : MtList BgWorkItem) :
    Option (MtList BgWorkItem × List (BgAction BgWorkItem) × List BgEvent) :=
  if req_list.size = 0 then none
  else
    match bg_process_all req_func_registered req_list.list with
    | none => none
    | some evs =>
        some (req_list.locked_clear,
              BgAction.lock ::
                (req_list.list.map BgAction.invokeItem ++
                  [BgAction.clearList, BgAction.unlock]),
              evs)

/-- Startup outcome of a background worker thread. -/
inductive BgStartupOutcome
  | tidMismatch (nexus_index : Nat) (tiny_tid : Nat)
  | running
  deriving DecidableEq, Repr

/-- Embedding of the startup phase of `Nexus::bg_thread_func`
(`nexus_bg_thread.cc`, lines 10-31): after `tls_registry->init()`, if the
Nexus-assigned thread index differs from the assigned tiny thread id, a
`runtime_error` with a mismatch diagnostic is thrown (fatal: it propagates out
of the thread function); otherwise the worker proceeds. -/
def bg_thread_startup (bg_thread_index : Nat) (assigned_tiny_tid : Nat) :
    BgStartupOutcome :=
  if bg_thread_index ≠ assigned_tiny_tid then
    BgStartupOutcome.tidMismatch bg_thread_index assigned_tiny_tid
  else BgStartupOutcome.running

/-- Embedding of `Nexus::bg_thread_func` up to and including its first drain:
the startup tiny-tid check, then (only if it passed) one drain of the
worker's request list. On a tid mismatch no work item is ever processed. -/
def bg_thread_run (bg_thread_index : Nat) (assigned_tiny_tid : Nat)
    (req_func_registered : Nat → Bool) (req_list : MtList BgWorkItem) :
    BgStartupOutcome × Option (MtList BgWorkItem × List (BgAction BgWorkItem) × List BgEvent) :=
  match bg_thread_startup bg_thread_index assigned_tiny_tid with
  | BgStartupOutcome.tidMismatch i t => (BgStartupOutcome.tidMismatch i t, none)
  | BgStartupOutcome.running =>
      (BgStartupOutcome.running, bg_drain_once req_func_registered req_list)

/-! ## Concrete sample values used to instantiate the theorems -/

/-- Sample client endpoint. -/
def epClient : SessionEndpoint :=
  { hostname := "client-host", rpc_id := 3, session_num := 0, transport_blob := 11 }

/-- Sample server endpoint whose session number is 0. -/
def epServer : SessionEndpoint :=
  { hostname := "server-host", rpc_id := 7, session_num := 0, transport_blob := 22 }

/-- Sample client session in `kDisconnectInProgress`, with callbacks enabled. -/
def sampleClientSession : Session :=
  { role := SessionRole.client, state := SessionState.kDisconnectInProgress,
    client := epClient, server := epServer, local_session_num := 0,
    sslot_arr := [], client_info := { sm_callbacks_disabled := false } }

/-- Sample client-side Rpc holding `sampleClientSession` at slot 0, with the
session in the management retry queue. -/
def sampleClientRpc : RpcState :=
  { rpc_id := 3, hostname := "client-host",
    session_vec := [some sampleClientSession], mgmt_retryq := [0] }

/-- Sample disconnect response packet for `sampleClientSession`. -/
def sampleDisconnectRespPkt : SessionMgmtPkt :=
  { pkt_type := SessionMgmtPktType.kDisconnectResp,
    err_type := SessionMgmtErrType.kNoError,
    client := epClient, server := epServer }

/-- Result of `handle_disconnect_resp_st sampleClientRpc sampleDisconnectRespPkt`. -/
def sampleDisconnectRespResult : RpcState × List SmEvent :=
  ({ rpc_id := 3, hostname := "client-host", session_vec := [none],
     mgmt_retryq := [] },
   [SmEvent.smCallback 0 SessionMgmtEventType.kDisconnected
      SessionMgmtErrType.kNoError])

/-- A null message buffer (all pointers null). -/
def nullMsgBuffer : MsgBuffer :=
  { buf := none, buffer := { buf := none }, num_pkts := 0, pkts_queued := 0,
    req_type := 0 }

/-- A quiescent slot: rx cleared, no tx, with a preallocated response buffer. -/
def quiescentSlot : SSlot :=
  { rx_msgbuf := nullMsgBuffer, tx_msgbuf := none,
    pre_resp_msgbuf :=
      { buf := some 5, buffer := { buf := some 5 }, num_pkts := 1,
        pkts_queued := 1, req_type := 0 },
    clt_save_info := { cont_func := 0, tag := 0 } }

/-- Sample quiescent server session with a full window of quiescent slots. -/
def sampleServerSession : Session :=
  { role := SessionRole.server, state := SessionState.kConnected,
    client := epClient, server := epServer, local_session_num := 0,
    sslot_arr := List.replicate kSessionReqWindow quiescentSlot,
    client_info := { sm_callbacks_disabled := false } }

/-- Sample server-side Rpc holding `sampleServerSession` at slot 0. -/
def sampleServerRpc : RpcState :=
  { rpc_id := 7, hostname := "server-host",
    session_vec := [some sampleServerSession], mgmt_retryq := [] }

/-- Sample disconnect request packet for `sampleServerSession`. -/
def sampleDisconnectReqPkt : SessionMgmtPkt :=
  { pkt_type := SessionMgmtPktType.kDisconnectReq,
    err_type := SessionMgmtErrType.kNoError,
    client := epClient, server := epServer }

/-- Sample rx message buffer holding a received request of type 2. -/
def sampleRxMsgBuffer : MsgBuffer :=
  { buf := some 9, buffer := { buf := some 9 }, num_pkts := 1, pkts_queued := 1,
    req_type := 2 }

/-- Sample slot handed to a background worker: pending rx buffer, no tx
buffer, a saved continuation tag. -/
def sampleBgSlot : SSlot :=
  { rx_msgbuf := sampleRxMsgBuffer, tx_msgbuf := none,
    pre_resp_msgbuf := nullMsgBuffer,
    clt_save_info := { cont_func := 1, tag := 42 } }

/-- Sample request work item. -/
def sampleReqItem : BgWorkItem :=
  { wi_type := BgWorkItemType.kReq, rpc_id := 7, context := some 1,
    sslot := sampleBgSlot }

/-- Sample continuation work item. -/
def sampleContItem : BgWorkItem :=
  { wi_type := BgWorkItemType.kResp, rpc_id := 3, context := some 1,
    sslot := sampleBgSlot }

/-- Sample background request list holding one request and one continuation. -/
def sampleBgList : MtList BgWorkItem :=
  { list := [sampleReqItem, sampleContItem], size := 2 }

/-! ## Helper lemmas -/

/-- Setting an in-range index and reading it back with `getD` yields the new
value. -/
theorem getD_set_self {α : Type} (l : List α) (i : Nat) (x : α) (d : α)
    (h : i < l.length) : (l.set i x).getD i d = x := by
  rw [List.getD_eq_getElem (l.set i x) d (by simpa using h)]
  exact List.getElem_set_self (by simpa using h)

/-- After removal, a session number is no longer in the retry queue. -/
theorem mgmt_retryq_contains_remove (q : List Nat) (n : Nat) :
    mgmt_retryq_contains (mgmt_retryq_remove q n) n = false := by
  simp [mgmt_retryq_contains, mgmt_retryq_remove, List.contains, List.elem_eq_mem,
    List.mem_filter]

/-- The items invoked in `map invokeItem items ++ rest` are `items` followed
by the items invoked in `rest`. -/
theorem invokedItems_map_append {α : Type} (items : List α)
    (rest : List (BgAction α)) :
    invokedItems (items.map BgAction.invokeItem ++ rest) =
      items ++ invokedItems rest := by
  induction items with
  | nil => rfl
  | cons i is ih =>
      simp only [List.map_cons, List.cons_append, invokedItems,
        List.filterMap_cons] at ih ⊢
      rw [ih]

/-- A server session is not a client session. -/
theorem is_client_false_of_is_server (s : Session) (h : s.is_server = true) :
    s.is_client = false := by
  cases hr : s.role <;> simp [Session.is_client, Session.is_server, hr] at h ⊢

/-- Characterization of a successful `bury_session_st`. -/
theorem bury_session_st_eq_some (rpc : RpcState) (session : Session)
    (r : RpcState × List SmEvent) :
    bury_session_st rpc session = some r ↔
      (¬(session.is_client = true ∧
          mgmt_retryq_contains rpc.mgmt_retryq session.local_session_num = true) ∧
        session.local_session_num < rpc.session_vec.length ∧
        r = ({ rpc with
                 session_vec := rpc.session_vec.set session.local_session_num none },
             session.sslot_arr.map
               (fun s => SmEvent.freeMsgBuffer s.pre_resp_msgbuf))) := by
  unfold bury_session_st
  split
  · rename_i hcond
    constructor
    · intro h
      exact Option.noConfusion h
    · rintro ⟨hnc, -, -⟩
      exact absurd hcond hnc
  · split
    · rename_i hcond hlen
      constructor
      · intro h
        exact ⟨hcond, hlen, (Option.some_injective _ h).symm⟩
      · rintro ⟨-, -, rfl⟩
        rfl
    · rename_i hcond hlen
      constructor
      · intro h
        exact Option.noConfusion h
      · rintro ⟨-, hl, -⟩
        exact absurd hl hlen

/-- Full inversion of a successful `handle_disconnect_resp_st` on a live
session: the asserted preconditions all held, and the result is exactly the
state with the session removed from the retry queue, marked disconnected and
then buried, with the callback event (when callbacks are enabled) followed by
the bury events. -/
theorem handle_disconnect_resp_st_inv
    (rpc : RpcState) (pkt : SessionMgmtPkt) (session : Session)
    (res : RpcState × List SmEvent)
    (hty : pkt.pkt_type = SessionMgmtPktType.kDisconnectResp)
    (hlen : pkt.client.session_num < rpc.session_vec.length)
    (hsess : rpc.session_vec.getD pkt.client.session_num none = some session)
    (hres : handle_disconnect_resp_st rpc pkt = some res) :
    session.state = SessionState.kDisconnectInProgress ∧
    mgmt_retryq_contains rpc.mgmt_retryq session.local_session_num = true ∧
    session.server = pkt.server ∧
    session.client = pkt.client ∧
    pkt.err_type = SessionMgmtErrType.kNoError ∧
    session.local_session_num < rpc.session_vec.length ∧
    res = ({ rpc with
              mgmt_retryq := mgmt_retryq_remove rpc.mgmt_retryq session.local_session_num,
              session_vec := (rpc.session_vec.set pkt.client.session_num
                (some { session with state := SessionState.kDisconnected })).set
                session.local_session_num none },
           (if session.client_info.sm_callbacks_disabled = false then
              [SmEvent.smCallback session.local_session_num
                SessionMgmtEventType.kDisconnected SessionMgmtErrType.kNoError]
            else []) ++
            session.sslot_arr.map (fun s => SmEvent.freeMsgBuffer s.pre_resp_msgbuf)) := by
  unfold handle_disconnect_resp_st at hres
  rw [hty, hsess] at hres
  simp [session_mgmt_err_type_is_valid, hlen] at hres
  obtain ⟨hstate, hq, hse, hce, herr, hmatch⟩ := hres
  split at hmatch
  · exact Option.noConfusion hmatch
  · rename_i rpc3 buryEvents hbury
    rw [bury_session_st_eq_some] at hbury
    obtain ⟨-, hloc, hr3⟩ := hbury
    have hloc2 : session.local_session_num < rpc.session_vec.length := by
      simpa [disconnect_resp_mark_disconnected, disconnect_resp_remove_retryq]
        using hloc
    refine ⟨hstate, hq, hse, hce, herr, hloc2, ?_⟩
    rw [← Option.some_injective _ hmatch]
    have h31 := congrArg Prod.fst hr3
    have h32 := congrArg Prod.snd hr3
    dsimp only at h31 h32
    subst h31
    subst h32
    simp [disconnect_resp_mark_disconnected, disconnect_resp_remove_retryq]

/-! ## C9: duplicate disconnect response is ignored -/

/-- C9: for every disconnect response packet whose client session number maps
to an empty slot in the session vector (a duplicate), `handle_disconnect_resp_st`
returns without invoking any session-management callback and without changing
any Rpc or session state: the result is the unchanged state and an empty event
list. -/
theorem handle_disconnect_resp_duplicate_ignored
    (rpc : RpcState) (pkt : SessionMgmtPkt)
    (hty : pkt.pkt_type = SessionMgmtPktType.kDisconnectResp)
    (hlen : pkt.client.session_num < rpc.session_vec.length)
    (hempty : rpc.session_vec.getD pkt.client.session_num none = none) :
    handle_disconnect_resp_st rpc pkt = some (rpc, []) := by
  unfold handle_disconnect_resp_st
  rw [hty, hempty]
  simp [session_mgmt_err_type_is_valid, hlen]

/-- Witness for C9 at a concrete input: an Rpc with one empty session slot
receiving a disconnect response for session number 0. -/
theorem handle_disconnect_resp_duplicate_ignored_witness :
    handle_disconnect_resp_st
      { rpc_id := 3, hostname := "client-host", session_vec := [none],
        mgmt_retryq := [] }
      { pkt_type := SessionMgmtPktType.kDisconnectResp,
        err_type := SessionMgmtErrType.kNoError,
        client := { hostname := "client-host", rpc_id := 3, session_num := 0,
                    transport_blob := 11 },
        server := { hostname := "server-host", rpc_id := 7, session_num := 4,
                    transport_blob := 22 } } =
      some ({ rpc_id := 3, hostname := "client-host", session_vec := [none],
              mgmt_retryq := [] }, []) :=
  handle_disconnect_resp_duplicate_ignored _ _ rfl (by decide) rfl

/-! ## C2: duplicate disconnect request is answered idempotently -/

/-- C2: for every disconnect request packet whose server session number maps
to an empty slot in the session vector, `handle_disconnect_req_st` resends a
`kNoError` response that is byte-for-byte identical to the original response
(`send_resp_mut` of the same request with `kNoError`, a function of the packet
alone) and leaves the Rpc state unchanged; replaying the same request any
number of times yields the same unchanged state and the same response every
time. -/
theorem handle_disconnect_req_duplicate_idempotent
    (rpc : RpcState) (pkt : SessionMgmtPkt)
    (hty : pkt.pkt_type = SessionMgmtPktType.kDisconnectReq)
    (hrid : pkt.server.rpc_id = rpc.rpc_id)
    (hhost : pkt.server.hostname = rpc.hostname)
    (hlen : pkt.server.session_num < rpc.session_vec.length)
    (hempty : rpc.session_vec.getD pkt.server.session_num none = none) :
    handle_disconnect_req_st rpc pkt =
      some (rpc, [SmEvent.sendResp (pkt.send_resp_mut SessionMgmtErrType.kNoError)]) ∧
    ∀ k : Nat, replay_disconnect_req rpc pkt k =
      some (rpc,
        List.replicate k [SmEvent.sendResp (pkt.send_resp_mut SessionMgmtErrType.kNoError)]) := by
  have hone : handle_disconnect_req_st rpc pkt =
      some (rpc, [SmEvent.sendResp (pkt.send_resp_mut SessionMgmtErrType.kNoError)]) := by
    unfold handle_disconnect_req_st
    rw [hty, hempty]
    simp [hrid, hhost, hlen]
  refine ⟨hone, ?_⟩
  intro k
  induction k with
  | zero => rfl
  | succ k ih =>
      unfold replay_disconnect_req
      rw [hone]
      simp [ih, List.replicate_succ]

/-- Witness for C2 at a concrete input: an Rpc with one empty server session
slot receiving (and replaying three times) a disconnect request for session
number 0. -/
theorem handle_disconnect_req_duplicate_idempotent_witness :
    handle_disconnect_req_st
      { rpc_id := 7, hostname := "server-host", session_vec := [none],
        mgmt_retryq := [] }
      { pkt_type := SessionMgmtPktType.kDisconnectReq,
        err_type := SessionMgmtErrType.kNoError,
        client := { hostname := "client-host", rpc_id := 3, session_num := 5,
                    transport_blob := 11 },
        server := { hostname := "server-host", rpc_id := 7, session_num := 0,
                    transport_blob := 22 } } =
      some ({ rpc_id := 7, hostname := "server-host", session_vec := [none],
              mgmt_retryq := [] },
        [SmEvent.sendResp
          { pkt_type := SessionMgmtPktType.kDisconnectResp,
            err_type := SessionMgmtErrType.kNoError,
            client := { hostname := "client-host", rpc_id := 3, session_num := 5,
                        transport_blob := 11 },
            server := { hostname := "server-host", rpc_id := 7, session_num := 0,
                        transport_blob := 22 } }]) ∧
    replay_disconnect_req
      { rpc_id := 7, hostname := "server-host", session_vec := [none],
        mgmt_retryq := [] }
      { pkt_type := SessionMgmtPktType.kDisconnectReq,
        err_type := SessionMgmtErrType.kNoError,
        client := { hostname := "client-host", rpc_id := 3, session_num := 5,
                    transport_blob := 11 },
        server := { hostname := "server-host", rpc_id := 7, session_num := 0,
                    transport_blob := 22 } } 3 =
      some ({ rpc_id := 7, hostname := "server-host", session_vec := [none],
              mgmt_retryq := [] },
        List.replicate 3
          [SmEvent.sendResp
            { pkt_type := SessionMgmtPktType.kDisconnectResp,
              err_type := SessionMgmtErrType.kNoError,
              client := { hostname := "client-host", rpc_id := 3, session_num := 5,
                          transport_blob := 11 },
              server := { hostname := "server-host", rpc_id := 7, session_num := 0,
                          transport_blob := 22 } }]) := by
  have h := handle_disconnect_req_duplicate_idempotent
    { rpc_id := 7, hostname := "server-host", session_vec := [none],
      mgmt_retryq := [] }
    { pkt_type := SessionMgmtPktType.kDisconnectReq,
      err_type := SessionMgmtErrType.kNoError,
      client := { hostname := "client-host", rpc_id := 3, session_num := 5,
                  transport_blob := 11 },
      server := { hostname := "server-host", rpc_id := 7, session_num := 0,
                  transport_blob := 22 } }
    rfl rfl rfl (by decide) rfl
  exact ⟨h.1, h.2 3⟩

/-! ## C1: disconnect response on a live session -/

/-- C1: for every disconnect response packet whose client session number maps
to a non-empty slot, a completed `handle_disconnect_resp_st` requires (asserts)
that the session state was `kDisconnectInProgress`, that the session was in
the management retry queue and that the packet's error type is `kNoError`; it
removes the session from the retry queue, transitions the session state to
`kDisconnected` (the slot is set to the disconnected session before being
buried), invokes the user callback with the disconnected event iff
`sm_callbacks_disabled` is false, and buries the session so that its
session-vector slot becomes empty. Since the theorem derives the three
required conditions from any successful run, a packet violating them can only
abort (the handler returns `none`). -/
theorem handle_disconnect_resp_live_session
    (rpc : RpcState) (pkt : SessionMgmtPkt) (session : Session)
    (res : RpcState × List SmEvent)
    (hty : pkt.pkt_type = SessionMgmtPktType.kDisconnectResp)
    (hlen : pkt.client.session_num < rpc.session_vec.length)
    (hsess : rpc.session_vec.getD pkt.client.session_num none = some session)
    (hres : handle_disconnect_resp_st rpc pkt = some res) :
    session.state = SessionState.kDisconnectInProgress ∧
    mgmt_retryq_contains rpc.mgmt_retryq session.local_session_num = true ∧
    pkt.err_type = SessionMgmtErrType.kNoError ∧
    res.1.mgmt_retryq = mgmt_retryq_remove rpc.mgmt_retryq session.local_session_num ∧
    mgmt_retryq_contains res.1.mgmt_retryq session.local_session_num = false ∧
    res.1.session_vec =
      (rpc.session_vec.set pkt.client.session_num
        (some { session with state := SessionState.kDisconnected })).set
        session.local_session_num none ∧
    (SmEvent.smCallback session.local_session_num SessionMgmtEventType.kDisconnected
        SessionMgmtErrType.kNoError ∈ res.2 ↔
      session.client_info.sm_callbacks_disabled = false) ∧
    res.1.session_vec.getD session.local_session_num none = none := by
  obtain ⟨hstate, hq, -, -, herr, hloc, hr⟩ :=
    handle_disconnect_resp_st_inv rpc pkt session res hty hlen hsess hres
  subst hr
  refine ⟨hstate, hq, herr, rfl, mgmt_retryq_contains_remove _ _, rfl, ?_, ?_⟩
  · cases hdis : session.client_info.sm_callbacks_disabled <;> simp [hdis]
  · exact getD_set_self _ _ _ _ (by simpa using hloc)

/-- Witness for C1: the concrete client Rpc, session and packet above. -/
theorem handle_disconnect_resp_live_session_witness :
    sampleClientSession.state = SessionState.kDisconnectInProgress ∧
    mgmt_retryq_contains sampleClientRpc.mgmt_retryq
      sampleClientSession.local_session_num = true ∧
    sampleDisconnectRespPkt.err_type = SessionMgmtErrType.kNoError ∧
    sampleDisconnectRespResult.1.mgmt_retryq =
      mgmt_retryq_remove sampleClientRpc.mgmt_retryq
        sampleClientSession.local_session_num ∧
    mgmt_retryq_contains sampleDisconnectRespResult.1.mgmt_retryq
      sampleClientSession.local_session_num = false ∧
    sampleDisconnectRespResult.1.session_vec =
      (sampleClientRpc.session_vec.set sampleDisconnectRespPkt.client.session_num
        (some { sampleClientSession with state := SessionState.kDisconnected })).set
        sampleClientSession.local_session_num none ∧
    (SmEvent.smCallback sampleClientSession.local_session_num
        SessionMgmtEventType.kDisconnected SessionMgmtErrType.kNoError ∈
        sampleDisconnectRespResult.2 ↔
      sampleClientSession.client_info.sm_callbacks_disabled = false) ∧
    sampleDisconnectRespResult.1.session_vec.getD
      sampleClientSession.local_session_num none = none :=
  handle_disconnect_resp_live_session sampleClientRpc sampleDisconnectRespPkt
    sampleClientSession sampleDisconnectRespResult rfl (by decide) rfl (by decide)

/-! ## C10: state seen by the disconnect callback -/

/-- C10: whenever `handle_disconnect_resp_st` invokes the user callback, at
the moment of invocation the session state is already `kDisconnected` and the
session is already removed from the retry queue, but the session is still
present in the session vector. In the embedding the state at the moment of
invocation is, by construction of `handle_disconnect_resp_st`, the result of
`disconnect_resp_mark_disconnected` after `disconnect_resp_remove_retryq`
(the handler buries the session afterwards), and the callback event precedes
every bury event in the handler's event list. -/
theorem disconnect_resp_callback_moment
    (rpc : RpcState) (pkt : SessionMgmtPkt) (session : Session)
    (res : RpcState × List SmEvent)
    (hty : pkt.pkt_type = SessionMgmtPktType.kDisconnectResp)
    (hlen : pkt.client.session_num < rpc.session_vec.length)
    (hsess : rpc.session_vec.getD pkt.client.session_num none = some session)
    (hres : handle_disconnect_resp_st rpc pkt = some res)
    (hen : session.client_info.sm_callbacks_disabled = false) :
    (∃ rest, res.2 = SmEvent.smCallback session.local_session_num
        SessionMgmtEventType.kDisconnected SessionMgmtErrType.kNoError :: rest) ∧
    (disconnect_resp_mark_disconnected (disconnect_resp_remove_retryq rpc session)
        pkt.client.session_num session).session_vec.getD
        pkt.client.session_num none =
      some { session with state := SessionState.kDisconnected } ∧
    mgmt_retryq_contains
      (disconnect_resp_remove_retryq rpc session).mgmt_retryq
      session.local_session_num = false ∧
    res.1.session_vec.getD session.local_session_num none = none := by
  obtain ⟨-, -, -, -, -, hloc, hr⟩ :=
    handle_disconnect_resp_st_inv rpc pkt session res hty hlen hsess hres
  subst hr
  refine ⟨⟨session.sslot_arr.map (fun s => SmEvent.freeMsgBuffer s.pre_resp_msgbuf),
            by simp [hen]⟩, ?_, ?_, ?_⟩
  · simp only [disconnect_resp_mark_disconnected, disconnect_resp_remove_retryq]
    exact getD_set_self _ _ _ _ (by simpa using hlen)
  · exact mgmt_retryq_contains_remove _ _
  · exact getD_set_self _ _ _ _ (by simpa using hloc)

/-- Witness for C10: the concrete client Rpc, session and packet above. -/
theorem disconnect_resp_callback_moment_witness :
    (∃ rest, sampleDisconnectRespResult.2 =
      SmEvent.smCallback sampleClientSession.local_session_num
        SessionMgmtEventType.kDisconnected SessionMgmtErrType.kNoError :: rest) ∧
    (disconnect_resp_mark_disconnected
        (disconnect_resp_remove_retryq sampleClientRpc sampleClientSession)
        sampleDisconnectRespPkt.client.session_num
        sampleClientSession).session_vec.getD
        sampleDisconnectRespPkt.client.session_num none =
      some { sampleClientSession with state := SessionState.kDisconnected } ∧
    mgmt_retryq_contains
      (disconnect_resp_remove_retryq sampleClientRpc sampleClientSession).mgmt_retryq
      sampleClientSession.local_session_num = false ∧
    sampleDisconnectRespResult.1.session_vec.getD
      sampleClientSession.local_session_num none = none :=
  disconnect_resp_callback_moment sampleClientRpc sampleDisconnectRespPkt
    sampleClientSession sampleDisconnectRespResult rfl (by decide) rfl (by decide) rfl

/-! ## C3: disconnect request on a live quiescent session -/

/-- C3: for every disconnect request packet whose server session number maps
to a non-empty slot holding a quiescent server session with endpoints matching
the packet, `handle_disconnect_req_st` sends a `kNoError` response and then
buries the session: the preallocated response buffer of each of the W slots is
released (one `freeMsgBuffer` event per slot of the window), the session's
entry in the session vector is set to empty, and the session object is
destroyed (the source's `delete session` does nothing further). -/
theorem handle_disconnect_req_live_session
    (rpc : RpcState) (pkt : SessionMgmtPkt) (session : Session)
    (hty : pkt.pkt_type = SessionMgmtPktType.kDisconnectReq)
    (hrid : pkt.server.rpc_id = rpc.rpc_id)
    (hhost : pkt.server.hostname = rpc.hostname)
    (hlen : pkt.server.session_num < rpc.session_vec.length)
    (hsess : rpc.session_vec.getD pkt.server.session_num none = some session)
    (hsrv : session.is_server = true)
    (hse : session.server = pkt.server)
    (hce : session.client = pkt.client)
    (hq : sslots_quiescent session.sslot_arr = true)
    (hW : session.sslot_arr.length = kSessionReqWindow)
    (hloc : session.local_session_num < rpc.session_vec.length) :
    handle_disconnect_req_st rpc pkt =
      some ({ rpc with
                session_vec := rpc.session_vec.set session.local_session_num none },
            SmEvent.sendResp (pkt.send_resp_mut SessionMgmtErrType.kNoError) ::
              session.sslot_arr.map
                (fun s => SmEvent.freeMsgBuffer s.pre_resp_msgbuf)) ∧
    (session.sslot_arr.map (fun s => SmEvent.freeMsgBuffer s.pre_resp_msgbuf)).length =
      kSessionReqWindow ∧
    (rpc.session_vec.set session.local_session_num none).getD
      session.local_session_num none = none := by
  have hbury : bury_session_st rpc session =
      some ({ rpc with
                session_vec := rpc.session_vec.set session.local_session_num none },
            session.sslot_arr.map (fun s => SmEvent.freeMsgBuffer s.pre_resp_msgbuf)) := by
    rw [bury_session_st_eq_some]
    refine ⟨?_, hloc, rfl⟩
    rintro ⟨hc, -⟩
    rw [is_client_false_of_is_server session hsrv] at hc
    exact Bool.noConfusion hc
  refine ⟨?_, by simp [hW], getD_set_self _ _ _ _ hloc⟩
  unfold handle_disconnect_req_st
  rw [hty, hsess]
  simp [hrid, hhost, hlen, hsrv, hse, hce, hq, hbury]

/-- Witness for C3: the concrete server Rpc, quiescent session and packet
above. -/
theorem handle_disconnect_req_live_session_witness :
    handle_disconnect_req_st sampleServerRpc sampleDisconnectReqPkt =
      some ({ sampleServerRpc with
                session_vec := sampleServerRpc.session_vec.set
                  sampleServerSession.local_session_num none },
            SmEvent.sendResp
                (sampleDisconnectReqPkt.send_resp_mut SessionMgmtErrType.kNoError) ::
              sampleServerSession.sslot_arr.map
                (fun s => SmEvent.freeMsgBuffer s.pre_resp_msgbuf)) ∧
    (sampleServerSession.sslot_arr.map
        (fun s => SmEvent.freeMsgBuffer s.pre_resp_msgbuf)).length =
      kSessionReqWindow ∧
    (sampleServerRpc.session_vec.set sampleServerSession.local_session_num
        none).getD sampleServerSession.local_session_num none = none :=
  handle_disconnect_req_live_session sampleServerRpc sampleDisconnectReqPkt
    sampleServerSession rfl rfl rfl (by decide) rfl rfl rfl rfl (by decide)
    (by decide) (by decide)

/-! ## C4: Rpc construction precondition checks -/

/-- C4 (code bug at the null-nexus precondition): with a null nexus the
constructor crashes (undefined behavior: the member-initializer list
dereferences `nexus` before the body's null check can run) instead of
throwing, so `crash` differs from every thrown error; every other validated
precondition violation throws the matching startup error in check order, and
when all preconditions hold (and transport initialization succeeds)
construction completes with the transport and allocator allocated and the
NexusHook registered. Evaluated at concrete inputs with bounds
`kMaxPhyPorts = 8`, `kMaxNumaNodes = 8`. -/
theorem rpc_construct_null_nexus_crash :
    rpc_construct { kMaxPhyPorts := 8, kMaxNumaNodes := 8 } none 0 5 0 0 false =
      RpcCtorOutcome.crash ∧
    (∀ e : RpcCtorError,
      (RpcCtorOutcome.crash == RpcCtorOutcome.thrown e) = false) ∧
    rpc_construct { kMaxPhyPorts := 8, kMaxNumaNodes := 8 }
      (some { hostname := "h", registered_rpc_ids := [], num_bg_threads := 0 })
      1000 5 0 0 false = RpcCtorOutcome.thrown RpcCtorError.notRoot ∧
    rpc_construct { kMaxPhyPorts := 8, kMaxNumaNodes := 8 }
      (some { hostname := "h", registered_rpc_ids := [], num_bg_threads := 0 })
      0 255 0 0 false = RpcCtorOutcome.thrown RpcCtorError.invalidRpcId ∧
    rpc_construct { kMaxPhyPorts := 8, kMaxNumaNodes := 8 }
      (some { hostname := "h", registered_rpc_ids := [7], num_bg_threads := 0 })
      0 7 0 0 false = RpcCtorOutcome.thrown RpcCtorError.invalidRpcId ∧
    rpc_construct { kMaxPhyPorts := 8, kMaxNumaNodes := 8 }
      (some { hostname := "h", registered_rpc_ids := [], num_bg_threads := 0 })
      0 5 8 0 false = RpcCtorOutcome.thrown RpcCtorError.invalidPhyPort ∧
    rpc_construct { kMaxPhyPorts := 8, kMaxNumaNodes := 8 }
      (some { hostname := "h", registered_rpc_ids := [], num_bg_threads := 0 })
      0 5 0 9 false = RpcCtorOutcome.thrown RpcCtorError.invalidNumaNode ∧
    rpc_construct { kMaxPhyPorts := 8, kMaxNumaNodes := 8 }
      (some { hostname := "h", registered_rpc_ids := [], num_bg_threads := 0 })
      0 5 0 0 false =
      RpcCtorOutcome.ok
        { rpc_id := 5, transport_allocated := true, huge_alloc_allocated := true,
          hook_registered := true } := by
  refine ⟨rfl, ?_, rfl, rfl, rfl, rfl, rfl, rfl⟩
  intro e
  rfl

/-! ## C5: background thread tiny-tid check -/

/-- C5: if the tiny thread id assigned by the TlsRegistry differs from the
worker index the Nexus gave the thread, the worker terminates with the
tid-mismatch diagnostic and no work item is ever processed (`none`); if they
are equal, the worker proceeds to its drain loop. -/
theorem bg_thread_tid_check
    (bg_thread_index assigned_tiny_tid : Nat) (f : Nat → Bool)
    (req_list : MtList BgWorkItem) :
    (bg_thread_index ≠ assigned_tiny_tid →
      bg_thread_run bg_thread_index assigned_tiny_tid f req_list =
        (BgStartupOutcome.tidMismatch bg_thread_index assigned_tiny_tid, none)) ∧
    (bg_thread_index = assigned_tiny_tid →
      bg_thread_run bg_thread_index assigned_tiny_tid f req_list =
        (BgStartupOutcome.running, bg_drain_once f req_list)) := by
  constructor
  · intro h
    simp [bg_thread_run, bg_thread_startup, h]
  · intro h
    simp [bg_thread_run, bg_thread_startup, h]

/-- Witness for C5: worker index 2 with assigned tid 3 (the spec's scenario)
terminates with the mismatch diagnostic; worker index 2 with tid 2 drains. -/
theorem bg_thread_tid_check_witness :
    bg_thread_run 2 3 (fun _ => true) { list := [], size := 0 } =
      (BgStartupOutcome.tidMismatch 2 3, none) ∧
    bg_thread_run 2 2 (fun _ => true) sampleBgList =
      (BgStartupOutcome.running, bg_drain_once (fun _ => true) sampleBgList) :=
  ⟨(bg_thread_tid_check 2 3 (fun _ => true) { list := [], size := 0 }).1 (by decide),
   (bg_thread_tid_check 2 2 (fun _ => true) sampleBgList).2 rfl⟩

/-! ## C6: destructor creator-thread check -/

/-- C6: invoked from any thread other than the creator thread, the Rpc
destructor terminates with the wrong-thread diagnostic — an outcome carrying
no release events, so neither the huge-page allocator, the transport, nor the
hook registration is released; invoked from the creator thread and not inside
the event loop while datapath checks are enabled, destruction proceeds and
releases all three in order. -/
theorem rpc_destructor_thread_check
    (in_creator kDatapathChecks in_event_loop : Bool) :
    (in_creator = false →
      rpc_destructor in_creator kDatapathChecks in_event_loop =
        RpcDtorOutcome.fatalWrongThread) ∧
    (∀ events : List RpcDtorEvent,
      RpcDtorOutcome.fatalWrongThread ≠ RpcDtorOutcome.destroyed events) ∧
    (in_creator = true →
      ¬(kDatapathChecks = true ∧ in_event_loop = true) →
      rpc_destructor in_creator kDatapathChecks in_event_loop =
        RpcDtorOutcome.destroyed
          [RpcDtorEvent.deleteHugeAlloc, RpcDtorEvent.deleteTransport,
           RpcDtorEvent.unregisterHook]) := by
  refine ⟨?_, ?_, ?_⟩
  · intro h
    simp [rpc_destructor, h]
  · intro events h
    exact RpcDtorOutcome.noConfusion h
  · intro h hloop
    simp [rpc_destructor, h, hloop]

/-- Witness for C6: destruction from a background thread is fatal; from the
creator thread outside the event loop it proceeds. -/
theorem rpc_destructor_thread_check_witness :
    rpc_destructor false true true = RpcDtorOutcome.fatalWrongThread ∧
    rpc_destructor true true false =
      RpcDtorOutcome.destroyed
        [RpcDtorEvent.deleteHugeAlloc, RpcDtorEvent.deleteTransport,
         RpcDtorEvent.unregisterHook] :=
  ⟨(rpc_destructor_thread_check false true true).1 rfl,
   (rpc_destructor_thread_check true true false).2.2 rfl (by simp)⟩

/-! ## C7: work item dispatch effects -/

/-- C7: for every work item a background worker processes to completion: if
its kind is request, the events are exactly the handler invocation followed
immediately by the release of the slot's rx buffer; if its kind is
continuation, the events are exactly the saved continuation invoked with the
saved tag, and no rx-buffer release event occurs. -/
theorem bg_work_item_dispatch
    (f : Nat → Bool) (item : BgWorkItem) (evs : List BgEvent)
    (hres : bg_process_work_item f item = some evs) :
    (item.wi_type = BgWorkItemType.kReq →
      ∃ ctx, item.context = some ctx ∧
        evs = [BgEvent.invokeReqHandler item.sslot.rx_msgbuf.req_type item.sslot ctx,
               BgEvent.buryRxMsgbuf item.sslot]) ∧
    (item.wi_type = BgWorkItemType.kResp →
      ∃ ctx, item.context = some ctx ∧
        evs = [BgEvent.invokeContinuation item.sslot ctx
                 item.sslot.clt_save_info.tag] ∧
        ∀ s : SSlot, BgEvent.buryRxMsgbuf s ∉ evs) := by
  unfold bg_process_work_item at hres
  cases hctx : item.context with
  | none =>
      rw [hctx] at hres
      exact Option.noConfusion hres
  | some ctx =>
      rw [hctx] at hres
      cases hty : item.wi_type with
      | kReq =>
          rw [hty] at hres
          simp at hres
          obtain ⟨-, -, -, hevs⟩ := hres
          constructor
          · intro _
            exact ⟨ctx, rfl, hevs.symm⟩
          · intro h
            exact BgWorkItemType.noConfusion h
      | kResp =>
          rw [hty] at hres
          simp at hres
          obtain ⟨-, -, hevs⟩ := hres
          constructor
          · intro h
            exact BgWorkItemType.noConfusion h
          · intro _
            refine ⟨ctx, rfl, hevs.symm, ?_⟩
            intro s
            rw [← hevs]
            simp

/-- Witness for C7: the sample request item and the sample continuation item,
each processed with every request type registered. -/
theorem bg_work_item_dispatch_witness :
    (sampleReqItem.wi_type = BgWorkItemType.kReq →
      ∃ ctx, sampleReqItem.context = some ctx ∧
        [BgEvent.invokeReqHandler 2 sampleBgSlot 1,
         BgEvent.buryRxMsgbuf sampleBgSlot] =
          [BgEvent.invokeReqHandler sampleReqItem.sslot.rx_msgbuf.req_type
             sampleReqItem.sslot ctx,
           BgEvent.buryRxMsgbuf sampleReqItem.sslot]) ∧
    (sampleContItem.wi_type = BgWorkItemType.kResp →
      ∃ ctx, sampleContItem.context = some ctx ∧
        [BgEvent.invokeContinuation sampleBgSlot 1 42] =
          [BgEvent.invokeContinuation sampleContItem.sslot ctx
             sampleContItem.sslot.clt_save_info.tag] ∧
        ∀ s : SSlot, BgEvent.buryRxMsgbuf s ∉
          [BgEvent.invokeContinuation sampleBgSlot 1 42]) :=
  ⟨(bg_work_item_dispatch (fun _ => true) sampleReqItem
      [BgEvent.invokeReqHandler 2 sampleBgSlot 1,
       BgEvent.buryRxMsgbuf sampleBgSlot] rfl).1,
   (bg_work_item_dispatch (fun _ => true) sampleContItem
      [BgEvent.invokeContinuation sampleBgSlot 1 42] rfl).2⟩

/-! ## C8: drain order and list clearing -/

/-- C8: within one drain of a background worker's list, the invoked items are
exactly the pushed items, each exactly once, in push order; the list state
after the drain is empty with size 0; and in the drain's lock-protocol trace
the list is cleared strictly before the lock is released. -/
theorem bg_drain_invokes_in_order
    (f : Nat → Bool) (l l2 : MtList BgWorkItem)
    (trace : List (BgAction BgWorkItem)) (evs : List BgEvent)
    (hres : bg_drain_once f l = some (l2, trace, evs)) :
    invokedItems trace = l.list ∧
    (∀ item : BgWorkItem, (invokedItems trace).count item = l.list.count item) ∧
    l2.list = [] ∧
    l2.size = 0 ∧
    (∃ t1 t2, trace = t1 ++ BgAction.clearList :: t2 ∧
      BgAction.unlock ∉ t1 ∧ BgAction.unlock ∈ t2) := by
  unfold bg_drain_once at hres
  split at hres
  · exact Option.noConfusion hres
  · split at hres
    · exact Option.noConfusion hres
    · rename_i evs2 hall
      rw [Option.some_inj] at hres
      injection hres with h1 h23
      injection h23 with h2 h3
      subst h1
      subst h2
      subst h3
      have hinv : invokedItems
          (BgAction.lock ::
            (l.list.map BgAction.invokeItem ++
              [BgAction.clearList, BgAction.unlock])) = l.list := by
        simp only [invokedItems, List.filterMap_cons]
        have := invokedItems_map_append l.list
          [BgAction.clearList (α := BgWorkItem), BgAction.unlock]
        simp only [invokedItems, List.filterMap_cons, List.filterMap_nil] at this
        simpa using this
      refine ⟨hinv, fun item => by rw [hinv], rfl, rfl,
        ⟨BgAction.lock :: l.list.map BgAction.invokeItem, [BgAction.unlock],
          by simp, ?_, by simp⟩⟩
      simp only [List.mem_cons, List.mem_map]
      rintro (h | ⟨i, -, h⟩) <;> exact BgAction.noConfusion h

/-- Witness for C8: draining the sample two-item list with every request type
registered. -/
theorem bg_drain_invokes_in_order_witness :
    invokedItems
        [BgAction.lock, BgAction.invokeItem sampleReqItem,
         BgAction.invokeItem sampleContItem, BgAction.clearList,
         BgAction.unlock] = sampleBgList.list ∧
    (∀ item : BgWorkItem,
      (invokedItems
        [BgAction.lock, BgAction.invokeItem sampleReqItem,
         BgAction.invokeItem sampleContItem, BgAction.clearList,
         BgAction.unlock]).count item = sampleBgList.list.count item) ∧
    (MtList.mk ([] : List BgWorkItem) 0).list = [] ∧
    (MtList.mk ([] : List BgWorkItem) 0).size = 0 ∧
    (∃ t1 t2,
      [BgAction.lock, BgAction.invokeItem sampleReqItem,
       BgAction.invokeItem sampleContItem, BgAction.clearList,
       BgAction.unlock] = t1 ++ BgAction.clearList :: t2 ∧
      BgAction.unlock ∉ t1 ∧ BgAction.unlock ∈ t2) :=
  bg_drain_invokes_in_order (fun _ => true) sampleBgList
    (MtList.mk ([] : List BgWorkItem) 0)
    [BgAction.lock, BgAction.invokeItem sampleReqItem,
     BgAction.invokeItem sampleContItem, BgAction.clearList, BgAction.unlock]
    [BgEvent.invokeReqHandler 2 sampleBgSlot 1, BgEvent.buryRxMsgbuf sampleBgSlot,
     BgEvent.invokeContinuation sampleBgSlot 1 42] rfl

end ERpc
